import Mathlib

/-!
Shallow embedding of the node orchestration and readiness-detection core of
`endtoend/beacon_node.go` (functions `startBeaconNodes`, `startNewBeaconNode`,
`getMultiAddrFromLogFile`, `waitForTextInFile`).

Text is modelled as `List Char`.  File reads are modelled as total oracles
(the claims under verification all assume each re-read of the log succeeds);
`time.Sleep` is modelled by counting elapsed time units (one Go second = one
time unit), and the child process side effects (spawn, log writes) are
modelled by an environment record per node.
-/

deriving instance DecidableEq for Except

namespace E2E

/-- Log/argument text, modelled as a list of characters. -/
abbrev Str := List Char

/-- Coercion from Lean string literals into the `Str` model. -/
def str (s : String) : Str := s.toList

/-- Decimal rendering of a natural number, the model of Go `%d` formatting. -/
def natStr (n : Nat) : Str := (Nat.repr n).toList

/-- Test whether `pat` is a prefix of `s`
(character-by-character, as Go `strings.HasPrefix` would). -/
def hasPfx : Str → Str → Bool
  | [], _ => true
  | _ :: _, [] => false
  | a :: as, b :: bs => a == b && hasPfx as bs

/-- Model of Go `strings.Index`: index of the first occurrence of `pat`
in `s`, or `none` when `pat` does not occur (Go returns `-1`). -/
def strIndex : Str → Str → Option Nat
  | [], pat => if hasPfx pat [] then some 0 else none
  | c :: rest, pat =>
    if hasPfx pat (c :: rest) then some 0
    else (strIndex rest pat).map (fun i => i + 1)

/-- Model of Go `strings.Contains`: `pat` occurs somewhere in `s`. -/
def containsStr (s pat : Str) : Bool := (strIndex s pat).isSome

/-- Model of `bufio.dropCR`: drop one trailing carriage return. -/
def dropCR (l : Str) : Str := if l.getLast? = some '\r' then l.dropLast else l

/-- Accumulator worker for `splitLines`; `acc` holds the current line reversed. -/
def splitLinesAux : Str → Str → List Str
  | acc, [] => if acc = [] then [] else [dropCR acc.reverse]
  | acc, c :: cs =>
    if c = '\n' then dropCR acc.reverse :: splitLinesAux [] cs
    else splitLinesAux (c :: acc) cs

/-- The token sequence produced by `bufio.Scanner` with `bufio.ScanLines`:
split at newlines, drop a trailing carriage return of each line, emit a final
unterminated line only when it is nonempty. -/
def splitLines (cs : Str) : List Str := splitLinesAux [] cs

/-- The marker whose quoted field holds the node's dialable address
(`searchText` in `getMultiAddrFromLogFile`). -/
def searchText : Str := str "\"Node started p2p server\" multiAddr=\""

/-- Model of `getMultiAddrFromLogFile` from `beacon_node.go`, as a pure function of the
file contents (the file read is the caller's oracle): find the first occurrence
of `searchText`, then return everything up to the next double quote. -/
def getMultiAddrFromLogFile (contents : Str) : Except Str Str :=
  match strIndex contents searchText with
  | none => .error (str "did not find peer text in " ++ contents)
  | some startIdx0 =>
    let startIdx := startIdx0 + searchText.length
    match strIndex (contents.drop startIdx) (str "\"") with
    | none => .error (str "did not find peer text in " ++ contents)
    | some endIdx => .ok ((contents.drop startIdx).take endIdx)

/-- Outcome of `waitForTextInFile`, instrumented with the elapsed time units
(each loop iteration sleeps 2 units before reading). -/
inductive WaitResult where
  | ok (elapsed : Nat)
  | timeout (elapsed : Nat) (msg : Str)
deriving DecidableEq

/-- Elapsed time units of a `WaitResult`. -/
def WaitResult.elapsed : WaitResult → Nat
  | .ok e => e
  | .timeout e _ => e

/-- Whether a `WaitResult` is the success (`nil` error) outcome. -/
def WaitResult.isOk : WaitResult → Bool
  | .ok _ => true
  | .timeout _ _ => false

/-- The failure message of `waitForTextInFile`:
`fmt.Errorf("could not find requested text \"%s\" in logs:\n%s", text, contents)`. -/
def timeoutMsg (text contents : Str) : Str :=
  str "could not find requested text \"" ++ text ++ str "\" in logs:\n" ++ contents

/-- The poll loop of `waitForTextInFile`.  The Go loop runs `wait` from `0`
to `maxWait = 36` in steps of `2`, one poll per step; here `k` is the poll
number (`k = wait / 2`) and `n` the remaining polls (`n = (maxWait - wait) / 2`),
so the loop is entered with `k = 0, n = 18`.  Each iteration sleeps 2 units,
rewinds to the start of the file and scans it line by line for `text`; on
exhaustion the file is read once more and surfaced in the error. -/
def waitLoop (readAt : Nat → Str) (text : Str) : Nat → Nat → WaitResult
  | k, 0 => .timeout (2 * k) (timeoutMsg text (readAt k))
  | k, n + 1 =>
    if (splitLines (readAt k)).any (fun line => containsStr line text) then
      .ok (2 * k + 2)
    else
      waitLoop readAt text (k + 1) n

/-- Model of `waitForTextInFile` from `beacon_node.go`: 18 polls, 2 time units apart
(`maxWait = 36`), over the oracle `readAt` giving the log contents observed at
each poll.  All reads are assumed to succeed (the claims assume this). -/
def waitForTextInFile (readAt : Nat → Str) (text : Str) : WaitResult :=
  waitLoop readAt text 0 18

/-- The `beaconNodeInfo` record from `beacon_node.go`. -/
structure beaconNodeInfo where
  processID : Nat
  datadir : Str
  rpcPort : Nat
  monitorPort : Nat
  grpcPort : Nat
  multiAddr : Str
deriving DecidableEq

/-- The `end2EndConfig` record from `beacon_node.go`; the contract address is kept in its
hex rendering (the only form the orchestration core uses), and the evaluator
list is outside this core. -/
structure end2EndConfig where
  minimalConfig : Bool
  tmpPath : Str
  epochsToRun : Nat
  numValidators : Nat
  numBeaconNodes : Nat
  enableSSZCache : Bool
  contractAddrHex : Str
deriving DecidableEq

/-- External-world behaviour of one node start: whether the binary resolves,
whether the log file creation and the process spawn succeed, the child pid,
the log contents observed at each poll of the readiness loop, and the log
contents observed by the address-extraction re-read. -/
structure NodeEnv where
  binaryFound : Bool
  createOk : Bool
  spawnOk : Bool
  pid : Nat
  logAt : Nat → Str
  extractContent : Str

/-- The terminal failure modes of one node start (each is a `t.Fatal` in Go,
aborting the whole run). -/
inductive StartFailure where
  | binaryNotFound
  | createError
  | spawnError
  | readinessTimeout (msg : Str)
  | addressParseError (msg : Str)
deriving DecidableEq

/-- The readiness marker passed to `waitForTextInFile`. -/
def readyText : Str := str "Node started p2p server"

/-- Flag wiring one already-started peer: `fmt.Sprintf("--peer=%s", multiAddr)`. -/
def peerFlag (addr : Str) : Str := str "--peer=" ++ addr

/-- The fixed argument list built at the top of `startNewBeaconNode`
(before the feature flags and peer flags are appended). -/
def baseArgs (config : end2EndConfig) (index : Nat) : List Str :=
  [str "--no-genesis-delay",
   str "--verbosity=debug",
   str "--force-clear-db",
   str "--no-discovery",
   str "--new-cache",
   str "--enable-shuffled-index-cache",
   str "--enable-skip-slots-cache",
   str "--enable-attestation-cache",
   str "--http-web3provider=http://127.0.0.1:8545",
   str "--web3provider=ws://127.0.0.1:8546",
   str "--datadir=" ++ config.tmpPath ++ str "/eth2-beacon-node-" ++ natStr index,
   str "--deposit-contract=" ++ config.contractAddrHex,
   str "--rpc-port=" ++ natStr (4000 + index),
   str "--p2p-udp-port=" ++ natStr (12000 + index),
   str "--p2p-tcp-port=" ++ natStr (13000 + index),
   str "--monitoring-port=" ++ natStr (8080 + index),
   str "--grpc-gateway-port=" ++ natStr (3200 + index),
   str "--contract-deployment-block=" ++ natStr 0]

/-- The full launch argument list of `startNewBeaconNode` for node
`index = beaconNodes.length`, given the registry built so far: base flags,
then the two conditional feature flags, then one `--peer=` flag per
already-registered node, in registry order. -/
def nodeArgs (config : end2EndConfig) (beaconNodes : List beaconNodeInfo) : List Str :=
  let index := beaconNodes.length
  (baseArgs config index
      ++ (if config.minimalConfig then [str "--minimal-config"] else [])
      ++ (if config.enableSSZCache then [str "--enable-ssz-cache"] else []))
    ++ beaconNodes.map (fun b => peerFlag b.multiAddr)

/-- The five per-index ports set on the command line of node `index`
(`--rpc-port`, `--p2p-udp-port`, `--p2p-tcp-port`, `--monitoring-port`,
`--grpc-gateway-port`). -/
def nodePorts (index : Nat) : List Nat :=
  [4000 + index, 12000 + index, 13000 + index, 8080 + index, 3200 + index]

/-- Model of `startNewBeaconNode` from `beacon_node.go`: resolve the binary, create the
log sink, spawn, block on the readiness poll, extract the multiaddr, and only
then build the `beaconNodeInfo` record.  Each Go `t.Fatal` branch becomes a
`StartFailure`. -/
def startNewBeaconNode (config : end2EndConfig) (env : NodeEnv)
    (beaconNodes : List beaconNodeInfo) : Except StartFailure beaconNodeInfo :=
  let index := beaconNodes.length
  if !env.binaryFound then .error .binaryNotFound
  else if !env.createOk then .error .createError
  else if !env.spawnOk then .error .spawnError
  else
    match waitForTextInFile env.logAt readyText with
    | .timeout _ msg => .error (.readinessTimeout msg)
    | .ok _ =>
      match getMultiAddrFromLogFile env.extractContent with
      | .error msg => .error (.addressParseError msg)
      | .ok multiAddr =>
        .ok { processID := env.pid
              datadir := config.tmpPath ++ str "/eth2-beacon-node-" ++ natStr index
              rpcPort := 4000 + index
              monitorPort := 8080 + index
              grpcPort := 3200 + index
              multiAddr := multiAddr }

/-- The loop body of `startBeaconNodes`, with the remaining iteration count as
fuel.  Besides the Go return value it records a trace of the launches that
actually happened: the node index and the argument list it was spawned with. -/
def startLoopT (config : end2EndConfig) (envs : Nat → NodeEnv) :
    Nat → List beaconNodeInfo →
    Except StartFailure (List beaconNodeInfo) × List (Nat × List Str)
  | 0, nodeInfo => (.ok nodeInfo, [])
  | n + 1, nodeInfo =>
    let index := nodeInfo.length
    match startNewBeaconNode config (envs index) nodeInfo with
    | .error e => (.error e, [(index, nodeArgs config nodeInfo)])
    | .ok newNode =>
      let rest := startLoopT config envs n (nodeInfo ++ [newNode])
      (rest.1, (index, nodeArgs config nodeInfo) :: rest.2)

/-- Model of `startBeaconNodes` with its launch trace: run `numBeaconNodes` sequential
node starts, each seeing the registry built so far. -/
def startBeaconNodesT (config : end2EndConfig) (envs : Nat → NodeEnv) :
    Except StartFailure (List beaconNodeInfo) × List (Nat × List Str) :=
  startLoopT config envs config.numBeaconNodes []

/-- Model of `startBeaconNodes` from `beacon_node.go` (the returned registry alone). -/
def startBeaconNodes (config : end2EndConfig) (envs : Nat → NodeEnv) :
    Except StartFailure (List beaconNodeInfo) :=
  (startBeaconNodesT config envs).1

/-- Recognizer of explicit peer-endpoint flags: arguments of the form
`--peer=<addr>`. -/
def isPeerArg (a : Str) : Bool := hasPfx (str "--peer=") a

/-- The five per-index port flags are all present in an argument list. -/
def hasPortArgs (index : Nat) (args : List Str) : Prop :=
  (str "--rpc-port=" ++ natStr (4000 + index)) ∈ args ∧
  (str "--p2p-udp-port=" ++ natStr (12000 + index)) ∈ args ∧
  (str "--p2p-tcp-port=" ++ natStr (13000 + index)) ∈ args ∧
  (str "--monitoring-port=" ++ natStr (8080 + index)) ∈ args ∧
  (str "--grpc-gateway-port=" ++ natStr (3200 + index)) ∈ args

/-! ### Concrete fixtures: a healthy environment and sample runs -/

/-- A multiaddr as the node binary logs it. -/
def sampleAddr : Str := str "/ip4/127.0.0.1/tcp/13000"

/-- Log contents of a healthy node: the readiness marker with a quoted address. -/
def sampleLog : Str := searchText ++ sampleAddr ++ str "\""

/-- Environment of a node whose binary resolves, whose spawn succeeds and whose
log shows the readiness line from the first poll on. -/
def sampleEnv : NodeEnv :=
  { binaryFound := true, createOk := true, spawnOk := true, pid := 7,
    logAt := fun _ => sampleLog, extractContent := sampleLog }

/-- The record that a healthy start produces for node `i`. -/
def sampleRecord (config : end2EndConfig) (i : Nat) : beaconNodeInfo :=
  { processID := 7,
    datadir := config.tmpPath ++ str "/eth2-beacon-node-" ++ natStr i,
    rpcPort := 4000 + i, monitorPort := 8080 + i, grpcPort := 3200 + i,
    multiAddr := sampleAddr }

/-- A two-node cluster configuration. -/
def sampleConfig : end2EndConfig :=
  { minimalConfig := false, tmpPath := str "/tmp", epochsToRun := 4, numValidators := 8,
    numBeaconNodes := 2, enableSSZCache := false, contractAddrHex := str "0xABCD" }

/-- Per-node environments where every node is healthy. -/
def sampleEnvs : Nat → NodeEnv := fun _ => sampleEnv

/-- The registry a healthy two-node run produces. -/
def sampleRegistry : List beaconNodeInfo :=
  [sampleRecord sampleConfig 0, sampleRecord sampleConfig 1]

/-- The launch trace of the healthy two-node run. -/
def sampleTrace : List (Nat × List Str) :=
  [(0, nodeArgs sampleConfig []),
   (1, nodeArgs sampleConfig [sampleRecord sampleConfig 0])]

/-- An environment whose binary resolution fails. -/
def badEnv : NodeEnv := { sampleEnv with binaryFound := false }

/-- Environments where node 0 is healthy and every later node fails to start. -/
def failEnvs : Nat → NodeEnv := fun i => if i = 0 then sampleEnv else badEnv

/-- A three-node cluster configuration. -/
def cfg3 : end2EndConfig := { sampleConfig with numBeaconNodes := 3 }

/-- The registry a healthy three-node run produces. -/
def reg3 : List beaconNodeInfo :=
  [sampleRecord cfg3 0, sampleRecord cfg3 1, sampleRecord cfg3 2]

/-- The launch trace of the healthy three-node run. -/
def trace3 : List (Nat × List Str) :=
  [(0, nodeArgs cfg3 []),
   (1, nodeArgs cfg3 [sampleRecord cfg3 0]),
   (2, nodeArgs cfg3 [sampleRecord cfg3 0, sampleRecord cfg3 1])]

/-- A cluster configuration large enough to make port categories overlap. -/
def cfg801 : end2EndConfig := { sampleConfig with numBeaconNodes := 801 }

/-- The registry a healthy 801-node run produces. -/
def reg801 : List beaconNodeInfo := (List.range' 0 801).map (fun i => sampleRecord cfg801 i)

/-! ### Lemmas about the string-search primitives -/

theorem hasPfx_cons_cons (a b : Char) (as bs : Str) :
    hasPfx (a :: as) (b :: bs) = (a == b && hasPfx as bs) := rfl

theorem hasPfx_iff (pat : Str) : ∀ s : Str, hasPfx pat s = true ↔ ∃ t, s = pat ++ t := by
  induction pat with
  | nil => intro s; simp [hasPfx]
  | cons a as ih =>
    intro s
    cases s with
    | nil => simp [hasPfx]
    | cons b bs =>
      rw [hasPfx_cons_cons, Bool.and_eq_true, beq_iff_eq, ih bs]
      constructor
      · rintro ⟨rfl, t, rfl⟩
        exact ⟨t, rfl⟩
      · rintro ⟨t, h⟩
        injection h with h1 h2
        exact ⟨h1.symm, t, h2⟩

theorem hasPfx_self_append (l t : Str) : hasPfx l (l ++ t) = true :=
  (hasPfx_iff l (l ++ t)).mpr ⟨t, rfl⟩

theorem hasPfx_append_long (pat : Str) : ∀ (l xs : Str), pat.length ≤ l.length →
    hasPfx pat (l ++ xs) = hasPfx pat l := by
  induction pat with
  | nil => intro l xs _; simp [hasPfx]
  | cons a as ih =>
    intro l xs h
    cases l with
    | nil => simp at h
    | cons b bs =>
      rw [List.cons_append, hasPfx_cons_cons, hasPfx_cons_cons,
        ih bs xs (by simp [List.length_cons] at h; omega)]

theorem strIndex_eq_some_iff (pat : Str) : ∀ (s : Str) (i : Nat),
    strIndex s pat = some i ↔
      (hasPfx pat (s.drop i) = true ∧ ∀ j, j < i → hasPfx pat (s.drop j) = false) := by
  intro s
  induction s with
  | nil =>
    intro i
    by_cases hp : hasPfx pat [] = true
    · constructor
      · intro h
        simp [strIndex, hp] at h
        subst h
        exact ⟨by simpa using hp, fun j hj => absurd hj (Nat.not_lt_zero j)⟩
      · rintro ⟨_, h2⟩
        rcases Nat.eq_zero_or_pos i with rfl | hpos
        · simp [strIndex, hp]
        · exact absurd hp (by simpa using h2 0 hpos)
    · constructor
      · intro h
        simp [strIndex, hp] at h
      · rintro ⟨h1, _⟩
        rw [List.drop_nil] at h1
        exact absurd h1 hp
  | cons c rest ih =>
    intro i
    by_cases hp : hasPfx pat (c :: rest) = true
    · constructor
      · intro h
        simp [strIndex, hp] at h
        subst h
        exact ⟨by simpa using hp, fun j hj => absurd hj (Nat.not_lt_zero j)⟩
      · rintro ⟨_, h2⟩
        rcases Nat.eq_zero_or_pos i with rfl | hpos
        · simp [strIndex, hp]
        · exact absurd hp (by simpa using h2 0 hpos)
    · have hstep : strIndex (c :: rest) pat = (strIndex rest pat).map (fun i => i + 1) := by
        simp [strIndex, hp]
      cases i with
      | zero =>
        constructor
        · intro h
          rw [hstep] at h
          simp [Option.map_eq_some'] at h
        · rintro ⟨h1, _⟩
          rw [List.drop_zero] at h1
          exact absurd h1 hp
      | succ j =>
        rw [hstep]
        constructor
        · intro h
          simp only [Option.map_eq_some'] at h
          obtain ⟨j', hj', heq⟩ := h
          have hjj : j' = j := Nat.succ_injective heq
          rw [hjj] at hj'
          obtain ⟨h1, h2⟩ := (ih j).mp hj'
          refine ⟨by simpa using h1, ?_⟩
          intro j2 hj2
          cases j2 with
          | zero =>
            rw [List.drop_zero]
            simpa using hp
          | succ j3 =>
            simpa using h2 j3 (by omega)
        · rintro ⟨h1, h2⟩
          have h1' : hasPfx pat (rest.drop j) = true := by simpa using h1
          have h2' : ∀ j2, j2 < j → hasPfx pat (rest.drop j2) = false := by
            intro j2 hj2
            simpa using h2 (j2 + 1) (by omega)
          rw [(ih j).mpr ⟨h1', h2'⟩]
          rfl

theorem strIndex_eq_none_iff (pat : Str) : ∀ s : Str,
    strIndex s pat = none ↔ ∀ i, hasPfx pat (s.drop i) = false := by
  intro s
  induction s with
  | nil =>
    by_cases hp : hasPfx pat [] = true
    · constructor
      · intro h
        rw [show strIndex [] pat = some 0 from by simp [strIndex, hp]] at h
        exact absurd h (by simp)
      · intro h
        exact absurd hp (by simpa using h 0)
    · constructor
      · intro _ i
        rw [List.drop_nil]
        simpa using hp
      · intro _
        simp [strIndex, hp]
  | cons c rest ih =>
    by_cases hp : hasPfx pat (c :: rest) = true
    · constructor
      · intro h
        rw [show strIndex (c :: rest) pat = some 0 from by simp [strIndex, hp]] at h
        exact absurd h (by simp)
      · intro h
        exact absurd hp (by simpa using h 0)
    · have hstep : strIndex (c :: rest) pat = (strIndex rest pat).map (fun i => i + 1) := by
        simp [strIndex, hp]
      rw [hstep]
      simp only [Option.map_eq_none']
      rw [ih]
      constructor
      · intro h i
        cases i with
        | zero =>
          rw [List.drop_zero]
          simpa using hp
        | succ j => simpa using h j
      · intro h j
        simpa using h (j + 1)

theorem containsStr_eq_true_iff (s pat : Str) :
    containsStr s pat = true ↔ ∃ l r, s = l ++ pat ++ r := by
  rw [containsStr, Option.isSome_iff_exists]
  constructor
  · rintro ⟨i, hi⟩
    obtain ⟨h1, _⟩ := (strIndex_eq_some_iff pat s i).mp hi
    obtain ⟨t, ht⟩ := (hasPfx_iff pat (s.drop i)).mp h1
    refine ⟨s.take i, t, ?_⟩
    conv_lhs => rw [← List.take_append_drop i s]
    rw [ht, List.append_assoc]
  · rintro ⟨l, r, rfl⟩
    cases hx : strIndex (l ++ pat ++ r) pat with
    | some i => exact ⟨i, rfl⟩
    | none =>
      exfalso
      have := (strIndex_eq_none_iff pat (l ++ pat ++ r)).mp hx l.length
      rw [List.append_assoc, List.drop_left] at this
      rw [hasPfx_self_append] at this
      simp at this

theorem containsStr_eq_false_iff (s pat : Str) :
    containsStr s pat = false ↔ strIndex s pat = none := by
  rw [containsStr]
  cases strIndex s pat <;> simp

/-! ### Behaviour of `getMultiAddrFromLogFile` -/

theorem strIndex_single (c : Char) : ∀ (l₁ l₂ : Str), c ∉ l₁ →
    strIndex (l₁ ++ c :: l₂) [c] = some l₁.length := by
  intro l₁ l₂ hc
  apply (strIndex_eq_some_iff [c] (l₁ ++ c :: l₂) l₁.length).mpr
  constructor
  · rw [List.drop_left]
    rw [show c :: l₂ = [c] ++ l₂ from rfl]
    exact hasPfx_self_append [c] l₂
  · intro j hj
    have hjl : j < (l₁ ++ c :: l₂).length := by
      rw [List.length_append]
      omega
    rw [List.drop_eq_getElem_cons hjl, hasPfx_cons_cons]
    have hget : (l₁ ++ c :: l₂)[j] = l₁[j] := List.getElem_append_left hj
    have hne : c ≠ (l₁ ++ c :: l₂)[j] := by
      rw [hget]
      intro hcontr
      exact hc (hcontr ▸ List.getElem_mem hj)
    simp [beq_eq_false_iff_ne.mpr hne]

/-- Success path of the extractor: if the first occurrence of the marker prefix
in the text is followed by a quote-free `addr` and then a closing quote, the
extractor returns exactly `addr`. -/
theorem getMultiAddr_ok (pre addr post : Str)
    (hfirst : ∀ j, j < pre.length →
      hasPfx searchText ((pre ++ searchText ++ addr ++ str "\"" ++ post).drop j) = false)
    (hq : '"' ∉ addr) :
    getMultiAddrFromLogFile (pre ++ searchText ++ addr ++ str "\"" ++ post) = .ok addr := by
  have hassoc1 : pre ++ searchText ++ addr ++ str "\"" ++ post =
      pre ++ (searchText ++ (addr ++ (str "\"" ++ post))) := by
    simp [List.append_assoc]
  have h1 : strIndex (pre ++ searchText ++ addr ++ str "\"" ++ post) searchText
      = some pre.length := by
    apply (strIndex_eq_some_iff searchText _ pre.length).mpr
    refine ⟨?_, hfirst⟩
    rw [hassoc1, List.drop_left]
    exact hasPfx_self_append searchText _
  have h2 : (pre ++ searchText ++ addr ++ str "\"" ++ post).drop
      (pre.length + searchText.length) = addr ++ (str "\"" ++ post) := by
    have hassoc2 : pre ++ searchText ++ addr ++ str "\"" ++ post =
        (pre ++ searchText) ++ (addr ++ (str "\"" ++ post)) := by
      simp [List.append_assoc]
    rw [hassoc2, show pre.length + searchText.length = (pre ++ searchText).length from
      (List.length_append pre searchText).symm, List.drop_left]
  have h3 : strIndex (addr ++ (str "\"" ++ post)) (str "\"") = some addr.length := by
    rw [show str "\"" ++ post = '"' :: post from rfl,
      show str "\"" = ['"'] from rfl]
    exact strIndex_single '"' addr post hq
  rw [getMultiAddrFromLogFile, h1]
  simp only [h2, h3]
  rw [List.take_left]

/-- Failure path of the extractor when the marker prefix never occurs. -/
theorem getMultiAddr_err_noMarker (contents : Str)
    (h : containsStr contents searchText = false) :
    getMultiAddrFromLogFile contents = .error (str "did not find peer text in " ++ contents) := by
  rw [getMultiAddrFromLogFile, (containsStr_eq_false_iff contents searchText).mp h]

/-- Failure path of the extractor when the marker prefix occurs but no closing
quote follows it. -/
theorem getMultiAddr_err_noQuote (contents : Str) (i : Nat)
    (h1 : strIndex contents searchText = some i)
    (h2 : containsStr (contents.drop (i + searchText.length)) (str "\"") = false) :
    getMultiAddrFromLogFile contents = .error (str "did not find peer text in " ++ contents) := by
  rw [getMultiAddrFromLogFile, h1]
  simp only [(containsStr_eq_false_iff _ _).mp h2]

/-! ### Behaviour of the readiness poll loop -/

theorem waitLoop_isOk_iff (readAt : Nat → Str) (text : Str) : ∀ (n k : Nat),
    (waitLoop readAt text k n).isOk = true ↔
      ∃ j, k ≤ j ∧ j < k + n ∧
        (splitLines (readAt j)).any (fun line => containsStr line text) = true := by
  intro n
  induction n with
  | zero =>
    intro k
    constructor
    · intro h
      rw [waitLoop] at h
      exact absurd h (by simp [WaitResult.isOk])
    · rintro ⟨j, h1, h2, _⟩
      omega
  | succ n ih =>
    intro k
    by_cases hm : (splitLines (readAt k)).any (fun line => containsStr line text) = true
    · rw [waitLoop, if_pos hm]
      constructor
      · intro _
        exact ⟨k, Nat.le_refl k, by omega, hm⟩
      · intro _
        rfl
    · rw [waitLoop, if_neg hm, ih (k + 1)]
      constructor
      · rintro ⟨j, h1, h2, h3⟩
        exact ⟨j, by omega, by omega, h3⟩
      · rintro ⟨j, h1, h2, h3⟩
        refine ⟨j, ?_, by omega, h3⟩
        rcases Nat.eq_or_lt_of_le h1 with rfl | h
        · exact absurd h3 hm
        · omega

theorem waitLoop_noMatch (readAt : Nat → Str) (text : Str) : ∀ (n k : Nat),
    (∀ j, k ≤ j → j < k + n →
      (splitLines (readAt j)).any (fun line => containsStr line text) = false) →
    waitLoop readAt text k n = .timeout (2 * (k + n)) (timeoutMsg text (readAt (k + n))) := by
  intro n
  induction n with
  | zero =>
    intro k _
    rw [waitLoop, Nat.add_zero]
  | succ n ih =>
    intro k h
    have hk : (splitLines (readAt k)).any (fun line => containsStr line text) = false :=
      h k (Nat.le_refl k) (by omega)
    rw [waitLoop, if_neg (by simp [hk]), ih (k + 1) (fun j h1 h2 => h j (by omega) (by omega)),
      show k + 1 + n = k + (n + 1) from by omega]

theorem waitLoop_elapsed_le (readAt : Nat → Str) (text : Str) : ∀ (n k : Nat),
    (waitLoop readAt text k n).elapsed ≤ 2 * (k + n) := by
  intro n
  induction n with
  | zero =>
    intro k
    rw [waitLoop]
    simp [WaitResult.elapsed]
  | succ n ih =>
    intro k
    by_cases hm : (splitLines (readAt k)).any (fun line => containsStr line text) = true
    · rw [waitLoop, if_pos hm]
      simp only [WaitResult.elapsed]
      omega
    · rw [waitLoop, if_neg hm]
      have := ih (k + 1)
      omega

/-! ### Behaviour of the orchestration loop -/

theorem startNewBeaconNode_ok (config : end2EndConfig) (env : NodeEnv)
    (beaconNodes : List beaconNodeInfo) (record : beaconNodeInfo)
    (h : startNewBeaconNode config env beaconNodes = .ok record) :
    (waitForTextInFile env.logAt readyText).isOk = true ∧
    getMultiAddrFromLogFile env.extractContent = .ok record.multiAddr ∧
    record.processID = env.pid ∧
    record.datadir = config.tmpPath ++ str "/eth2-beacon-node-" ++ natStr beaconNodes.length ∧
    record.rpcPort = 4000 + beaconNodes.length ∧
    record.monitorPort = 8080 + beaconNodes.length ∧
    record.grpcPort = 3200 + beaconNodes.length := by
  rw [startNewBeaconNode] at h
  cases hb : env.binaryFound
  · rw [hb] at h
    simp at h
  · rw [hb] at h
    cases hc : env.createOk
    · rw [hc] at h
      simp at h
    · rw [hc] at h
      cases hs : env.spawnOk
      · rw [hs] at h
        simp at h
      · rw [hs] at h
        simp only [Bool.not_true, Bool.false_eq_true, if_false] at h
        cases hw : waitForTextInFile env.logAt readyText with
        | timeout e msg =>
          rw [hw] at h
          simp at h
        | ok e =>
          rw [hw] at h
          cases hx : getMultiAddrFromLogFile env.extractContent with
          | error msg =>
            rw [hx] at h
            simp at h
          | ok addr =>
            rw [hx] at h
            injection h with h2
            subst h2
            exact ⟨rfl, rfl, rfl, rfl, rfl, rfl, rfl⟩

theorem startLoopT_ok (config : end2EndConfig) (envs : Nat → NodeEnv) :
    ∀ (n : Nat) (acc registry : List beaconNodeInfo) (trace : List (Nat × List Str)),
    startLoopT config envs n acc = (.ok registry, trace) →
    registry.length = acc.length + n ∧
    registry.take acc.length = acc ∧
    (∀ i, acc.length ≤ i → ∀ h : i < registry.length,
      startNewBeaconNode config (envs i) (registry.take i) = .ok (registry.get ⟨i, h⟩)) ∧
    trace = (List.range' acc.length n).map (fun i => (i, nodeArgs config (registry.take i))) := by
  intro n
  induction n with
  | zero =>
    intro acc registry trace h
    rw [startLoopT] at h
    injection h with h1 h2
    injection h1 with h1
    subst h1
    subst h2
    refine ⟨(Nat.add_zero _).symm, List.take_length acc, ?_, by simp [List.range']⟩
    intro i hi hlt
    omega
  | succ n ih =>
    intro acc registry trace h
    rw [startLoopT] at h
    cases hstart : startNewBeaconNode config (envs acc.length) acc with
    | error e =>
      rw [hstart] at h
      simp at h
    | ok newNode =>
      rw [hstart] at h
      dsimp only at h
      cases hrest : startLoopT config envs n (acc ++ [newNode]) with
      | mk r2 t2 =>
        rw [hrest] at h
        injection h with h1 h2
        subst h1
        subst h2
        obtain ⟨hlen, htake, hrec, htr⟩ := ih (acc ++ [newNode]) registry t2 hrest
        have hlen' : registry.length = acc.length + (n + 1) := by
          rw [hlen]
          simp
          omega
        have htake1 : registry.take (acc.length + 1) = acc ++ [newNode] := by
          simpa using htake
        have htake0 : registry.take acc.length = acc := by
          have hx : registry.take acc.length = (registry.take (acc.length + 1)).take acc.length := by
            rw [List.take_take]
            congr 1
            omega
          rw [hx, htake1, List.take_left]
        have hget : ∀ h : acc.length < registry.length,
            registry.get ⟨acc.length, h⟩ = newNode := by
          intro hlt
          have hs : registry.take (acc.length + 1)
              = registry.take acc.length ++ registry[acc.length]?.toList :=
            List.take_succ
          rw [htake1, htake0, List.getElem?_eq_getElem hlt] at hs
          simp only [Option.toList_some] at hs
          have h3 : newNode = registry[acc.length] := by
            simpa using List.append_cancel_left hs
          rw [List.get_eq_getElem]
          exact h3.symm
        refine ⟨hlen', htake0, ?_, ?_⟩
        · intro i hi hlt
          rcases Nat.eq_or_lt_of_le hi with rfl | hgt
          · rw [htake0, hget hlt]
            exact hstart
          · exact hrec i (by simp; omega) hlt
        · rw [show List.range' acc.length (n + 1) = acc.length :: List.range' (acc.length + 1) n
            from rfl, List.map_cons]
          congr 1
          · rw [htake0]
          · simpa using htr

theorem startLoopT_add (config : end2EndConfig) (envs : Nat → NodeEnv) :
    ∀ (m n : Nat) (acc R : List beaconNodeInfo) (tr : List (Nat × List Str)),
    startLoopT config envs m acc = (.ok R, tr) →
    startLoopT config envs (m + n) acc =
      ((startLoopT config envs n R).1, tr ++ (startLoopT config envs n R).2) := by
  intro m
  induction m with
  | zero =>
    intro n acc R tr h
    rw [startLoopT] at h
    injection h with h1 h2
    injection h1 with h1
    subst h1
    subst h2
    rw [Nat.zero_add, List.nil_append]
  | succ m ih =>
    intro n acc R tr h
    rw [startLoopT] at h
    cases hstart : startNewBeaconNode config (envs acc.length) acc with
    | error e =>
      rw [hstart] at h
      simp at h
    | ok newNode =>
      rw [hstart] at h
      dsimp only at h
      cases hrest : startLoopT config envs m (acc ++ [newNode]) with
      | mk r2 t2 =>
        rw [hrest] at h
        injection h with h1 h2
        subst h1
        subst h2
        rw [show m + 1 + n = (m + n) + 1 from by omega, startLoopT]
        rw [hstart]
        dsimp only
        rw [ih n (acc ++ [newNode]) R t2 hrest]
        rw [List.cons_append]

theorem startNew_sample (config : end2EndConfig) (acc : List beaconNodeInfo) :
    startNewBeaconNode config sampleEnv acc = .ok (sampleRecord config acc.length) := by
  have hwait : waitForTextInFile (fun _ => sampleLog) readyText = .ok 2 := by decide
  have hext : getMultiAddrFromLogFile sampleLog = .ok sampleAddr := by decide
  rw [startNewBeaconNode,
    show sampleEnv.logAt = (fun _ => sampleLog) from rfl,
    show sampleEnv.extractContent = sampleLog from rfl,
    show sampleEnv.binaryFound = true from rfl,
    show sampleEnv.createOk = true from rfl,
    show sampleEnv.spawnOk = true from rfl,
    hwait, hext]
  rfl

/-- Under an all-healthy constant environment, the loop always succeeds and
appends one `sampleRecord` per remaining iteration. -/
theorem startLoopT_const_ok (config : end2EndConfig) :
    ∀ (n : Nat) (acc : List beaconNodeInfo),
    (startLoopT config (fun _ => sampleEnv) n acc).1 =
      .ok (acc ++ (List.range' acc.length n).map (fun i => sampleRecord config i)) := by
  intro n
  induction n with
  | zero =>
    intro acc
    rw [startLoopT]
    simp [List.range']
  | succ n ih =>
    intro acc
    rw [startLoopT, startNew_sample]
    dsimp only
    rw [ih (acc ++ [sampleRecord config acc.length])]
    rw [show List.range' acc.length (n + 1)
      = acc.length :: List.range' (acc.length + 1) n from rfl, List.map_cons]
    simp [List.append_assoc]

/-! ### Peer-flag bookkeeping -/

theorem isPeerArg_peerFlag (addr : Str) : isPeerArg (peerFlag addr) = true :=
  hasPfx_self_append (str "--peer=") addr

theorem isPeerArg_head_false (head xs : Str)
    (hlen : (str "--peer=").length ≤ head.length)
    (hhead : isPeerArg head = false) : isPeerArg (head ++ xs) = false := by
  rw [isPeerArg, hasPfx_append_long (str "--peer=") head xs hlen]
  exact hhead

theorem filter_baseArgs (config : end2EndConfig) (index : Nat) :
    (baseArgs config index).filter isPeerArg = [] := by
  have hdd : isPeerArg (str "--datadir="
      ++ (config.tmpPath ++ (str "/eth2-beacon-node-" ++ natStr index))) = false :=
    isPeerArg_head_false (str "--datadir=") _ (by decide) (by decide)
  have hdc : isPeerArg (str "--deposit-contract=" ++ config.contractAddrHex) = false :=
    isPeerArg_head_false (str "--deposit-contract=") _ (by decide) (by decide)
  have hrpc : isPeerArg (str "--rpc-port=" ++ natStr (4000 + index)) = false :=
    isPeerArg_head_false (str "--rpc-port=") _ (by decide) (by decide)
  have hudp : isPeerArg (str "--p2p-udp-port=" ++ natStr (12000 + index)) = false :=
    isPeerArg_head_false (str "--p2p-udp-port=") _ (by decide) (by decide)
  have htcp : isPeerArg (str "--p2p-tcp-port=" ++ natStr (13000 + index)) = false :=
    isPeerArg_head_false (str "--p2p-tcp-port=") _ (by decide) (by decide)
  have hmon : isPeerArg (str "--monitoring-port=" ++ natStr (8080 + index)) = false :=
    isPeerArg_head_false (str "--monitoring-port=") _ (by decide) (by decide)
  have hgw : isPeerArg (str "--grpc-gateway-port=" ++ natStr (3200 + index)) = false :=
    isPeerArg_head_false (str "--grpc-gateway-port=") _ (by decide) (by decide)
  have hblk : isPeerArg (str "--contract-deployment-block=" ++ natStr 0) = false :=
    isPeerArg_head_false (str "--contract-deployment-block=") _ (by decide) (by decide)
  simp [baseArgs, hdd, hdc, hrpc, hudp, htcp, hmon, hgw, hblk,
    (by decide : isPeerArg (str "--no-genesis-delay") = false),
    (by decide : isPeerArg (str "--verbosity=debug") = false),
    (by decide : isPeerArg (str "--force-clear-db") = false),
    (by decide : isPeerArg (str "--no-discovery") = false),
    (by decide : isPeerArg (str "--new-cache") = false),
    (by decide : isPeerArg (str "--enable-shuffled-index-cache") = false),
    (by decide : isPeerArg (str "--enable-skip-slots-cache") = false),
    (by decide : isPeerArg (str "--enable-attestation-cache") = false),
    (by decide : isPeerArg (str "--http-web3provider=http://127.0.0.1:8545") = false),
    (by decide : isPeerArg (str "--web3provider=ws://127.0.0.1:8546") = false)]

theorem filter_peerFlags (beaconNodes : List beaconNodeInfo) :
    (beaconNodes.map (fun b => peerFlag b.multiAddr)).filter isPeerArg
      = beaconNodes.map (fun b => peerFlag b.multiAddr) := by
  induction beaconNodes with
  | nil => rfl
  | cons b bs ih =>
    rw [List.map_cons]
    simp [List.filter_cons, isPeerArg_peerFlag, ih]

theorem filter_nodeArgs (config : end2EndConfig) (beaconNodes : List beaconNodeInfo) :
    (nodeArgs config beaconNodes).filter isPeerArg
      = beaconNodes.map (fun b => peerFlag b.multiAddr) := by
  have hopt1 : ((if config.minimalConfig then [str "--minimal-config"] else []) :
      List Str).filter isPeerArg = [] := by
    cases config.minimalConfig <;>
      simp [List.filter_cons, (by decide : isPeerArg (str "--minimal-config") = false)]
  have hopt2 : ((if config.enableSSZCache then [str "--enable-ssz-cache"] else []) :
      List Str).filter isPeerArg = [] := by
    cases config.enableSSZCache <;>
      simp [List.filter_cons, (by decide : isPeerArg (str "--enable-ssz-cache") = false)]
  rw [nodeArgs]
  rw [List.filter_append, List.filter_append, List.filter_append,
    filter_baseArgs, hopt1, hopt2, filter_peerFlags]
  simp

/-! ### Shape of a successful run -/

theorem registry_get_fields (config : end2EndConfig) (envs : Nat → NodeEnv)
    (registry : List beaconNodeInfo) (trace : List (Nat × List Str))
    (h : startBeaconNodesT config envs = (.ok registry, trace)) :
    registry.length = config.numBeaconNodes ∧
    (∀ i (hi : i < registry.length),
      (waitForTextInFile (envs i).logAt readyText).isOk = true ∧
      getMultiAddrFromLogFile (envs i).extractContent
        = .ok ((registry.get ⟨i, hi⟩).multiAddr) ∧
      (registry.get ⟨i, hi⟩).processID = (envs i).pid ∧
      (registry.get ⟨i, hi⟩).datadir
        = config.tmpPath ++ str "/eth2-beacon-node-" ++ natStr i ∧
      (registry.get ⟨i, hi⟩).rpcPort = 4000 + i ∧
      (registry.get ⟨i, hi⟩).monitorPort = 8080 + i ∧
      (registry.get ⟨i, hi⟩).grpcPort = 3200 + i) ∧
    trace = (List.range config.numBeaconNodes).map
      (fun i => (i, nodeArgs config (registry.take i))) ∧
    (∀ i, i < registry.length → (registry.take i).length = i) := by
  rw [startBeaconNodesT] at h
  obtain ⟨hlen, _, hrec, htr⟩ :=
    startLoopT_ok config envs config.numBeaconNodes [] registry trace h
  have hlen' : registry.length = config.numBeaconNodes := by simpa using hlen
  have htk : ∀ i, i < registry.length → (registry.take i).length = i := by
    intro i hi
    rw [List.length_take]
    omega
  refine ⟨hlen', ?_, ?_, htk⟩
  · intro i hi
    obtain ⟨hw, hx, hpid, hdat, hrpc, hmon, hgrpc⟩ :=
      startNewBeaconNode_ok _ _ _ _ (hrec i (by simp) hi)
    rw [htk i hi] at hdat hrpc hmon hgrpc
    exact ⟨hw, hx, hpid, hdat, hrpc, hmon, hgrpc⟩
  · rw [htr, List.range_eq_range']
    simp

theorem reg801_length : reg801.length = 801 := by
  simp [reg801]

theorem reg801_get (i : Nat) (h : i < reg801.length) :
    reg801.get ⟨i, h⟩ = sampleRecord cfg801 i := by
  have hi : i < 801 := by
    rw [reg801_length] at h
    exact h
  simp [reg801, List.get_eq_getElem, List.getElem_map, List.getElem_range']

/-! ### Claim theorems -/

/-- C1 (amended): the readiness watcher succeeds if and only if, at some poll
`k < 18`, some scanned line of the log content observed at that poll contains
the marker as a substring (Go scans line by line, so a marker spanning a line
break is never matched even though it is a substring of the whole content);
if no poll ever matches, it returns the timeout failure after exactly the
36-time-unit budget, and in every case the elapsed time is at most 36 units,
assuming each poll's re-read of the log succeeds. -/
theorem C1_watcher_amended (readAt : Nat → Str) (text : Str) :
    ((waitForTextInFile readAt text).isOk = true ↔
      ∃ k, k < 18 ∧ (splitLines (readAt k)).any (fun line => containsStr line text) = true) ∧
    ((∀ k, k < 18 → (splitLines (readAt k)).any (fun line => containsStr line text) = false) →
      waitForTextInFile readAt text = .timeout 36 (timeoutMsg text (readAt 18))) ∧
    (waitForTextInFile readAt text).elapsed ≤ 36 := by
  refine ⟨?_, ?_, ?_⟩
  · rw [waitForTextInFile, waitLoop_isOk_iff]
    constructor
    · rintro ⟨j, _, h2, h3⟩
      exact ⟨j, by omega, h3⟩
    · rintro ⟨j, h1, h3⟩
      exact ⟨j, by omega, by omega, h3⟩
  · intro h
    rw [waitForTextInFile, waitLoop_noMatch readAt text 18 0 (fun j _ h2 => h j (by omega))]
  · have h := waitLoop_elapsed_le readAt text 18 0
    rw [waitForTextInFile]
    omega

/-- C1 (counterexample): for the marker `"a\nb"` and a log whose content at
every poll is exactly `"a\nb"`, the marker is a substring of the observed
content at poll 0, yet the watcher returns failure, refuting the claimed
"success iff the marker is a substring of the content at some poll". -/
theorem C1_counterexample :
    containsStr ((fun _ => str "a\nb") 0) (str "a\nb") = true ∧
    waitForTextInFile (fun _ => str "a\nb") (str "a\nb")
      = .timeout 36 (timeoutMsg (str "a\nb") (str "a\nb")) :=
  ⟨by decide, by decide⟩

/-- C1 (witness): the amended theorem applied to a log that never shows the
marker: the watcher times out after the full 36-unit budget. -/
theorem C1_witness :
    waitForTextInFile (fun _ => str "starting up") (str "Node started p2p server")
      = .timeout 36 (timeoutMsg (str "Node started p2p server") (str "starting up")) :=
  (C1_watcher_amended (fun _ => str "starting up") (str "Node started p2p server")).2.1
    (fun _ _ => by decide)

/-- C2: the launch argument list for node `i = beaconNodes.length` contains
exactly the `i` peer-endpoint flags `--peer=<addr>` of the already-registered
nodes `0..i-1`, in registry order, and node 0's list has none. -/
theorem C2_peer_args (config : end2EndConfig) (beaconNodes : List beaconNodeInfo) :
    (nodeArgs config beaconNodes).filter isPeerArg
        = beaconNodes.map (fun b => peerFlag b.multiAddr) ∧
    ((nodeArgs config beaconNodes).filter isPeerArg).length = beaconNodes.length ∧
    (nodeArgs config []).filter isPeerArg = [] := by
  refine ⟨filter_nodeArgs config beaconNodes, ?_, ?_⟩
  · rw [filter_nodeArgs config beaconNodes, List.length_map]
  · rw [filter_nodeArgs config []]
    rfl

/-- C3: a successful run returns a registry of exactly `numBeaconNodes`
records whose data directory and ports are the index-derived values for
indices `0..N-1`, in insertion order equal to start order. -/
theorem C3_registry_shape (config : end2EndConfig) (envs : Nat → NodeEnv)
    (registry : List beaconNodeInfo) (trace : List (Nat × List Str))
    (h : startBeaconNodesT config envs = (.ok registry, trace)) :
    registry.length = config.numBeaconNodes ∧
    ∀ i (hi : i < registry.length),
      (registry.get ⟨i, hi⟩).datadir
          = config.tmpPath ++ str "/eth2-beacon-node-" ++ natStr i ∧
      (registry.get ⟨i, hi⟩).rpcPort = 4000 + i ∧
      (registry.get ⟨i, hi⟩).monitorPort = 8080 + i ∧
      (registry.get ⟨i, hi⟩).grpcPort = 3200 + i := by
  obtain ⟨hlen, hrec, -, -⟩ := registry_get_fields config envs registry trace h
  refine ⟨hlen, ?_⟩
  intro i hi
  obtain ⟨-, -, -, hdat, hrpc, hmon, hgrpc⟩ := hrec i hi
  exact ⟨hdat, hrpc, hmon, hgrpc⟩

/-- C3 (witness): the healthy two-node run has a registry of length
`numBeaconNodes = 2` whose entry 1 carries the index-derived ports. -/
theorem C3_witness :
    sampleRegistry.length = sampleConfig.numBeaconNodes ∧
    (sampleRegistry.get ⟨1, by decide⟩).rpcPort = 4000 + 1 := by
  have h := C3_registry_shape sampleConfig sampleEnvs sampleRegistry sampleTrace (by rfl)
  exact ⟨h.1, (h.2 1 (by decide)).2.1⟩

/-- C4 (amended): in any run of at most 800 nodes, the five derived ports of
two distinct registered nodes never collide; the bound is needed because the
smallest gap between two port bases is 800 (gateway 3200 vs RPC 4000). -/
theorem C4_ports_amended (config : end2EndConfig) (envs : Nat → NodeEnv)
    (registry : List beaconNodeInfo) (i j : Nat)
    (hrun : startBeaconNodes config envs = .ok registry)
    (hN : registry.length ≤ 800)
    (hi : i < registry.length) (hj : j < registry.length) (hij : i ≠ j) :
    ∀ p, p ∈ nodePorts i → p ∉ nodePorts j := by
  intro p hp hq
  have hi8 : i < 800 := by omega
  have hj8 : j < 800 := by omega
  rw [nodePorts] at hp hq
  simp only [List.mem_cons, List.not_mem_nil, or_false] at hp hq
  rcases hp with rfl | rfl | rfl | rfl | rfl <;>
    rcases hq with h | h | h | h | h <;> omega

/-- C4 (counterexample): an 801-node run succeeds, its registry holds the
distinct nodes 0 and 800, and both have 4000 among their five derived ports
(node 0's RPC port equals node 800's gateway port), refuting the unrestricted
pairwise-distinctness claim. -/
theorem C4_counterexample :
    startBeaconNodes cfg801 (fun _ => sampleEnv) = .ok reg801 ∧
    reg801.length = 801 ∧
    (0 : Nat) ≠ 800 ∧
    (4000 ∈ nodePorts 0 ∧ 4000 ∈ nodePorts 800) ∧
    (reg801.get ⟨0, by rw [reg801_length]; omega⟩).rpcPort = 4000 ∧
    (reg801.get ⟨800, by rw [reg801_length]; omega⟩).grpcPort = 4000 := by
  refine ⟨?_, reg801_length, by decide, ⟨by decide, by decide⟩, ?_, ?_⟩
  · rw [startBeaconNodes, startBeaconNodesT,
      show cfg801.numBeaconNodes = 801 from rfl,
      startLoopT_const_ok cfg801 801 []]
    rfl
  · rw [reg801_get 0 (by rw [reg801_length]; omega)]
    rfl
  · rw [reg801_get 800 (by rw [reg801_length]; omega)]
    rfl

/-- C4 (witness): the amended theorem applied to the healthy two-node run at
the distinct indices 0 and 1, then at the shared candidate port 4000. -/
theorem C4_witness : (4000 : Nat) ∉ nodePorts 1 :=
  C4_ports_amended sampleConfig sampleEnvs sampleRegistry 0 1
    (by rfl) (by decide) (by decide) (by decide) (by decide) 4000 (by decide)

/-- C5: the address extractor is a pure function of the log text: when the
first occurrence of the marker prefix is followed by a quote-free address and
a closing quote it returns exactly that address; when the prefix is absent, or
present with no closing quote after it, it returns the parse error rather
than a fabricated value. -/
theorem C5_extractor :
    (∀ pre addr post : Str,
      (∀ j, j < pre.length →
        hasPfx searchText ((pre ++ searchText ++ addr ++ str "\"" ++ post).drop j) = false) →
      '"' ∉ addr →
      getMultiAddrFromLogFile (pre ++ searchText ++ addr ++ str "\"" ++ post) = .ok addr) ∧
    (∀ contents : Str, containsStr contents searchText = false →
      getMultiAddrFromLogFile contents
        = .error (str "did not find peer text in " ++ contents)) ∧
    (∀ (contents : Str) (i : Nat), strIndex contents searchText = some i →
      containsStr (contents.drop (i + searchText.length)) (str "\"") = false →
      getMultiAddrFromLogFile contents
        = .error (str "did not find peer text in " ++ contents)) :=
  ⟨getMultiAddr_ok, getMultiAddr_err_noMarker, getMultiAddr_err_noQuote⟩

/-- C5 (witness): the extractor on a log with a proper quoted address, on a
log without the marker, and on a log whose marker has no closing quote. -/
theorem C5_witness :
    getMultiAddrFromLogFile (searchText ++ str "/ip4/1" ++ str "\"" ++ str " done")
      = .ok (str "/ip4/1") ∧
    getMultiAddrFromLogFile (str "no marker here")
      = .error (str "did not find peer text in " ++ str "no marker here") ∧
    getMultiAddrFromLogFile (str "x" ++ searchText)
      = .error (str "did not find peer text in " ++ (str "x" ++ searchText)) := by
  refine ⟨?_, ?_, ?_⟩
  · have h := C5_extractor.1 [] (str "/ip4/1") (str " done")
      (fun j hj => absurd hj (Nat.not_lt_zero j)) (by decide)
    simpa using h
  · exact C5_extractor.2.1 (str "no marker here") (by decide)
  · exact C5_extractor.2.2 (str "x" ++ searchText) 1 (by decide) (by decide)

/-- C6: a record is only ever produced — and hence only ever appended to the
registry — after its readiness wait succeeded and its address extraction
succeeded, and the record's `multiAddr` is exactly the extracted address. -/
theorem C6_ready_before_append :
    (∀ (config : end2EndConfig) (env : NodeEnv) (nodes : List beaconNodeInfo)
        (record : beaconNodeInfo),
      startNewBeaconNode config env nodes = .ok record →
      (waitForTextInFile env.logAt readyText).isOk = true ∧
      getMultiAddrFromLogFile env.extractContent = .ok record.multiAddr) ∧
    (∀ (config : end2EndConfig) (envs : Nat → NodeEnv) (registry : List beaconNodeInfo)
        (trace : List (Nat × List Str)),
      startBeaconNodesT config envs = (.ok registry, trace) →
      ∀ i (hi : i < registry.length),
        (waitForTextInFile (envs i).logAt readyText).isOk = true ∧
        getMultiAddrFromLogFile (envs i).extractContent
          = .ok ((registry.get ⟨i, hi⟩).multiAddr)) := by
  constructor
  · intro config env nodes record h
    obtain ⟨hw, hx, -⟩ := startNewBeaconNode_ok config env nodes record h
    exact ⟨hw, hx⟩
  · intro config envs registry trace h i hi
    obtain ⟨-, hrec, -, -⟩ := registry_get_fields config envs registry trace h
    obtain ⟨hw, hx, -⟩ := hrec i hi
    exact ⟨hw, hx⟩

/-- C6 (witness): the invariant applied to a healthy single node start. -/
theorem C6_witness :
    (waitForTextInFile sampleEnv.logAt readyText).isOk = true ∧
    getMultiAddrFromLogFile sampleEnv.extractContent
      = .ok ((sampleRecord sampleConfig 0).multiAddr) :=
  C6_ready_before_append.1 sampleConfig sampleEnv [] (sampleRecord sampleConfig 0)
    (startNew_sample sampleConfig [])

/-- C7: every launch argument list carries the five index-derived port flags
`4000+i`, `12000+i`, `13000+i`, `8080+i`, `3200+i`; in a successful run every
traced launch carries them for its index, and a three-node run's registry has
RPC ports 4000-4002, monitoring ports 8080-8082 and gateway ports 3200-3202. -/
theorem C7_ports :
    (∀ (config : end2EndConfig) (beaconNodes : List beaconNodeInfo),
      hasPortArgs beaconNodes.length (nodeArgs config beaconNodes)) ∧
    (∀ (config : end2EndConfig) (envs : Nat → NodeEnv) (registry : List beaconNodeInfo)
        (trace : List (Nat × List Str)),
      startBeaconNodesT config envs = (.ok registry, trace) →
      (∀ i a, (i, a) ∈ trace → hasPortArgs i a) ∧
      (registry.length = 3 →
        registry.map (fun b => b.rpcPort) = [4000, 4001, 4002] ∧
        registry.map (fun b => b.monitorPort) = [8080, 8081, 8082] ∧
        registry.map (fun b => b.grpcPort) = [3200, 3201, 3202])) := by
  have hgen : ∀ (config : end2EndConfig) (beaconNodes : List beaconNodeInfo),
      hasPortArgs beaconNodes.length (nodeArgs config beaconNodes) := by
    intro config nodes
    rw [hasPortArgs]
    refine ⟨?_, ?_, ?_, ?_, ?_⟩ <;>
      · rw [nodeArgs, baseArgs]
        simp
  refine ⟨hgen, ?_⟩
  intro config envs registry trace h
  obtain ⟨hlen, hrec, htr, htk⟩ := registry_get_fields config envs registry trace h
  constructor
  · intro i a hmem
    rw [htr] at hmem
    simp only [List.mem_map, List.mem_range] at hmem
    obtain ⟨j, hj, heq⟩ := hmem
    injection heq with e1 e2
    have hjlen : (registry.take j).length = j := htk j (by omega)
    have hport := hgen config (registry.take j)
    rw [hjlen] at hport
    rw [← e1, ← e2]
    exact hport
  · intro h3
    obtain ⟨a, b, c, rfl⟩ : ∃ a b c, registry = [a, b, c] := by
      cases registry with
      | nil => exact absurd h3 (by simp)
      | cons a t1 =>
        cases t1 with
        | nil => exact absurd h3 (by simp)
        | cons b t2 =>
          cases t2 with
          | nil => exact absurd h3 (by simp)
          | cons c t3 =>
            cases t3 with
            | nil => exact ⟨a, b, c, rfl⟩
            | cons d t4 =>
              exfalso
              simp [List.length_cons] at h3
    obtain ⟨-, -, -, -, hr0, hm0, hg0⟩ := hrec 0 (by simp)
    obtain ⟨-, -, -, -, hr1, hm1, hg1⟩ := hrec 1 (by simp)
    obtain ⟨-, -, -, -, hr2, hm2, hg2⟩ := hrec 2 (by simp)
    simp only [List.get] at hr0 hm0 hg0 hr1 hm1 hg1 hr2 hm2 hg2
    refine ⟨?_, ?_, ?_⟩ <;>
      simp [hr0, hm0, hg0, hr1, hm1, hg1, hr2, hm2, hg2]

/-- C7 (witness): the healthy three-node run has RPC ports 4000-4002, and node
2's launch arguments carry all five port flags for index 2. -/
theorem C7_witness :
    reg3.map (fun b => b.rpcPort) = [4000, 4001, 4002] ∧
    hasPortArgs 2 (nodeArgs cfg3 [sampleRecord cfg3 0, sampleRecord cfg3 1]) := by
  have h := C7_ports.2 cfg3 sampleEnvs reg3 trace3 (by rfl)
  exact ⟨((h.2 (by decide)).1), C7_ports.1 cfg3 [sampleRecord cfg3 0, sampleRecord cfg3 1]⟩

/-- C8: if nodes `0..k-1` start successfully and starting node `k` fails with
any error, the whole run returns that error — no registry is produced — and
the trace of attempted launches is exactly `0..k`: nodes `k+1..N-1` are never
spawned and nothing further is appended. -/
theorem C8_abort_on_failure (config : end2EndConfig) (envs : Nat → NodeEnv) (k : Nat)
    (e : StartFailure) (Rk : List beaconNodeInfo)
    (hk : k < config.numBeaconNodes)
    (hpre : (startLoopT config envs k []).1 = .ok Rk)
    (hfail : startNewBeaconNode config (envs k) Rk = .error e) :
    (startBeaconNodesT config envs).1 = .error e ∧
    (startBeaconNodesT config envs).2.map (fun x => x.1) = List.range (k + 1) := by
  cases hpair : startLoopT config envs k [] with
  | mk r tr =>
    rw [hpair] at hpre
    dsimp only at hpre
    subst hpre
    obtain ⟨hlen, -, -, htr⟩ := startLoopT_ok config envs k [] Rk tr hpair
    have hRk : Rk.length = k := by simpa using hlen
    obtain ⟨m, hm⟩ : ∃ m, config.numBeaconNodes - k = m + 1 :=
      ⟨config.numBeaconNodes - k - 1, by omega⟩
    have hN : config.numBeaconNodes = k + (m + 1) := by omega
    have hafter : startLoopT config envs (m + 1) Rk
        = (.error e, [(k, nodeArgs config Rk)]) := by
      rw [startLoopT, hRk, hfail]
    have hsplit := startLoopT_add config envs k (m + 1) [] Rk tr hpair
    rw [startBeaconNodesT, hN, hsplit, hafter]
    refine ⟨rfl, ?_⟩
    dsimp only
    rw [List.map_append, htr, List.map_map]
    simp only [List.range_succ, List.range_eq_range']
    rw [show ((fun x : Nat × List Str => x.1)
      ∘ fun i => (i, nodeArgs config (List.take i Rk))) = fun i => i from rfl]
    simp

/-- C8 (witness): with node 0 healthy and node 1's binary missing in a
two-node configuration, the run returns `binaryNotFound` and only nodes 0 and
1 were ever attempted. -/
theorem C8_witness :
    (startBeaconNodesT sampleConfig failEnvs).1 = .error .binaryNotFound ∧
    (startBeaconNodesT sampleConfig failEnvs).2.map (fun x => x.1) = List.range 2 :=
  C8_abort_on_failure sampleConfig failEnvs 1 .binaryNotFound [sampleRecord sampleConfig 0]
    (by decide) (by rfl) (by rfl)

/-- C9: when no poll ever sees the marker, the watcher's failure message is
the literal format string carrying the searched text and, verbatim, the full
log content read at the moment of exhaustion. -/
theorem C9_timeout_report (readAt : Nat → Str) (text : Str)
    (h : ∀ k, k < 18 → (splitLines (readAt k)).any (fun line => containsStr line text) = false) :
    waitForTextInFile readAt text
      = .timeout 36 (str "could not find requested text \"" ++ text
          ++ str "\" in logs:\n" ++ readAt 18) := by
  rw [waitForTextInFile, waitLoop_noMatch readAt text 18 0 (fun j _ h2 => h j (by omega))]
  rfl

/-- C9 (witness): the timeout report for a log that never shows the marker
carries the marker text and the final log content verbatim. -/
theorem C9_witness :
    waitForTextInFile (fun _ => str "boot log") (str "ready")
      = .timeout 36 (str "could not find requested text \"" ++ str "ready"
          ++ str "\" in logs:\n" ++ str "boot log") :=
  C9_timeout_report (fun _ => str "boot log") (str "ready")
    (fun k _ => show (splitLines (str "boot log")).any
      (fun line => containsStr line (str "ready")) = false by decide)

/-- C10: when the marker prefix is immediately followed by a closing quote the
extractor succeeds with the empty address (so a registry record's peer address
can be empty), and when the prefix occurs more than once the address is taken
from the first occurrence. -/
theorem C10_extractor_edge :
    (∀ pre post : Str,
      (∀ j, j < pre.length →
        hasPfx searchText ((pre ++ searchText ++ str "\"" ++ post).drop j) = false) →
      getMultiAddrFromLogFile (pre ++ searchText ++ str "\"" ++ post) = .ok []) ∧
    (∀ pre a1 mid a2 post : Str,
      (∀ j, j < pre.length →
        hasPfx searchText ((pre ++ searchText ++ a1 ++ str "\"" ++ mid ++ searchText ++ a2
          ++ str "\"" ++ post).drop j) = false) →
      '"' ∉ a1 →
      getMultiAddrFromLogFile (pre ++ searchText ++ a1 ++ str "\"" ++ mid ++ searchText ++ a2
          ++ str "\"" ++ post) = .ok a1) := by
  constructor
  · intro pre post hfirst
    have heq : pre ++ searchText ++ ([] : Str) ++ str "\"" ++ post
        = pre ++ searchText ++ str "\"" ++ post := by
      simp
    have h := getMultiAddr_ok pre [] post (by rw [heq]; exact hfirst) (by simp)
    rw [heq] at h
    exact h
  · intro pre a1 mid a2 post hfirst hq
    have heq : pre ++ searchText ++ a1 ++ str "\""
          ++ (mid ++ (searchText ++ (a2 ++ (str "\"" ++ post))))
        = pre ++ searchText ++ a1 ++ str "\"" ++ mid ++ searchText ++ a2
          ++ str "\"" ++ post := by
      simp [List.append_assoc]
    have h := getMultiAddr_ok pre a1 (mid ++ (searchText ++ (a2 ++ (str "\"" ++ post))))
      (by rw [heq]; exact hfirst) hq
    rw [heq] at h
    exact h

/-- C10 (witness): the extractor on a log whose quoted field is empty, and on
a log with two marker occurrences, taking the first address. -/
theorem C10_witness :
    getMultiAddrFromLogFile (searchText ++ str "\"") = .ok [] ∧
    getMultiAddrFromLogFile (searchText ++ str "/a" ++ str "\"" ++ str " again "
        ++ searchText ++ str "/b" ++ str "\"") = .ok (str "/a") := by
  constructor
  · have h := C10_extractor_edge.1 [] [] (fun j hj => absurd hj (Nat.not_lt_zero j))
    simpa using h
  · have h := C10_extractor_edge.2 [] (str "/a") (str " again ") (str "/b") []
      (fun j hj => absurd hj (Nat.not_lt_zero j)) (by decide)
    simpa using h

end E2E
